import Mathlib

/-!
# Verification of the portfolio backend's analytics and content logic

Shallow embedding of the JavaScript source of the portfolio backend
(tracking routes, geolocation utility, session derivation, CSV export,
lead/ad/blog handlers), with theorems settling the specification claims.

Conventions of the embedding:
* JavaScript strings are Lean `String`s; header/body values that may be
  `undefined` are `Option String`, and JS truthiness on strings treats
  `undefined` and `""` as falsy.
* Timestamps are milliseconds since the Unix epoch as `Nat` (the routes
  only ever handle current dates, which are positive).  The server's
  local midnight (`setHours(0,0,0,0)`) is modelled as UTC midnight.
* 32-bit machine words are `Nat` with explicit reduction modulo `2 ^ 32`.
* The two outbound geolocation HTTP lookups are modelled by `Option`
  parameters carrying the parsed JSON a lookup would have produced
  (`none` = network failure / timeout / non-OK response); the embedding
  additionally returns how many outbound calls were attempted.
-/

namespace Portfolio

/-! ## JavaScript string/truthiness helpers -/

/-- JS `a || b` for two possibly-undefined strings: `undefined` and the
empty string are falsy. -/
def jsOrOpt (a b : Option String) : Option String :=
  match a with
  | some s => if s = "" then b else some s
  | none => b

/-- JS truthiness test on a possibly-undefined string: `true` exactly when
the value is absent or the empty string. -/
def jsFalsyO (o : Option String) : Bool :=
  o.getD "" = ""

/-- JS `s || d` on two definite strings (`""` falls back to `d`). -/
def jsOr (s d : String) : String :=
  if s = "" then d else s

/-- JS `String.prototype.startsWith`. -/
def jsStartsWith (s pat : String) : Bool :=
  pat.data.isPrefixOf s.data

/-! ## Session identity (`utils/session.js`)

`generateSessionId` hashes `` `${ip}-${userAgent}-${date}` `` with SHA-256
and keeps the first 16 hex characters.  The SHA-256 implementation below
follows FIPS 180-4 over byte lists. -/

/-- Reduce to a 32-bit word. -/
def w32 (n : Nat) : Nat := n % 4294967296

/-- Rotate a word right by `n` bit positions. -/
def rotr (n x : Nat) : Nat := w32 ((x >>> n) ||| (x <<< (32 - n)))

/-- `Ch(x,y,z)` of FIPS 180-4 (`¬x` as xor with the 32-bit mask). -/
def shaCh (x y z : Nat) : Nat := (x &&& y) ^^^ ((x ^^^ 4294967295) &&& z)

/-- `Maj(x,y,z)` of FIPS 180-4. -/
def shaMaj (x y z : Nat) : Nat := (x &&& y) ^^^ (x &&& z) ^^^ (y &&& z)

/-- `Σ₀` of FIPS 180-4. -/
def bsig0 (x : Nat) : Nat := rotr 2 x ^^^ rotr 13 x ^^^ rotr 22 x

/-- `Σ₁` of FIPS 180-4. -/
def bsig1 (x : Nat) : Nat := rotr 6 x ^^^ rotr 11 x ^^^ rotr 25 x

/-- `σ₀` of FIPS 180-4. -/
def ssig0 (x : Nat) : Nat := rotr 7 x ^^^ rotr 18 x ^^^ (x >>> 3)

/-- `σ₁` of FIPS 180-4. -/
def ssig1 (x : Nat) : Nat := rotr 17 x ^^^ rotr 19 x ^^^ (x >>> 10)

/-- The table of 64 round constants of FIPS 180-4 (decimal rendering
of the cube-root fractions). -/
def shaK : List Nat :=
  [1116352408, 1899447441, 3049323471, 3921009573,
   961987163, 1508970993, 2453635748, 2870763221,
   3624381080, 310598401, 607225278, 1426881987,
   1925078388, 2162078206, 2614888103, 3248222580,
   3835390401, 4022224774, 264347078, 604807628,
   770255983, 1249150122, 1555081692, 1996064986,
   2554220882, 2821834349, 2952996808, 3210313671,
   3336571891, 3584528711, 113926993, 338241895,
   666307205, 773529912, 1294757372, 1396182291,
   1695183700, 1986661051, 2177026350, 2456956037,
   2730485921, 2820302411, 3259730800, 3345764771,
   3516065817, 3600352804, 4094571909, 275423344,
   430227734, 506948616, 659060556, 883997877,
   958139571, 1322822218, 1537002063, 1747873779,
   1955562222, 2024104815, 2227730452, 2361852424,
   2428436474, 2756734187, 3204031479, 3329325298]

/-- Internal SHA-256 state: eight 32-bit working variables. -/
structure Hash8 where
  a : Nat
  b : Nat
  c : Nat
  d : Nat
  e : Nat
  f : Nat
  g : Nat
  h : Nat
deriving Repr, DecidableEq

/-- The initial hash state of FIPS 180-4 (decimal rendering of the
square-root fractions). -/
def shaInit : Hash8 :=
  ⟨1779033703, 3144134277, 1013904242, 2773480762,
   1359893119, 2600822924, 528734635, 1541459225⟩

/-- Big-endian 8-byte encoding of a (64-bit) length value. -/
def bytes8 (n : Nat) : List Nat :=
  [(n >>> 56) % 256, (n >>> 48) % 256, (n >>> 40) % 256, (n >>> 32) % 256,
   (n >>> 24) % 256, (n >>> 16) % 256, (n >>> 8) % 256, n % 256]

/-- SHA-256 padding: append `0x80`, zero bytes to 56 mod 64, then the
bit length as a big-endian 64-bit integer. -/
def padMessage (msg : List Nat) : List Nat :=
  let len := msg.length
  let zeros := (120 - (len + 1) % 64) % 64
  msg ++ 128 :: List.replicate zeros 0 ++ bytes8 (len * 8)

/-- Split a byte list into 64-byte blocks (fuel-driven so the kernel can
reduce it; fuel is the list length). -/
def chunks64 : Nat → List Nat → List (List Nat)
  | 0, _ => []
  | _, [] => []
  | fuel + 1, l => l.take 64 :: chunks64 fuel (l.drop 64)

/-- Combine a block's bytes into big-endian 32-bit words. -/
def wordsOfBlock : List Nat → List Nat
  | b0 :: b1 :: b2 :: b3 :: rest =>
      (((b0 * 256 + b1) * 256 + b2) * 256 + b3) :: wordsOfBlock rest
  | _ => []

/-- Extend the message schedule by `n` words.  The accumulator holds the
schedule most-recent first, so `w[t-2]` is at index 1, `w[t-7]` at 6,
`w[t-15]` at 14 and `w[t-16]` at 15. -/
def extendSchedule : Nat → List Nat → List Nat
  | 0, ws => ws
  | n + 1, ws =>
      extendSchedule n
        (w32 (ssig1 (ws.getD 1 0) + ws.getD 6 0 + ssig0 (ws.getD 14 0) + ws.getD 15 0) :: ws)

/-- The 64-word message schedule of one block. -/
def messageSchedule (block : List Nat) : List Nat :=
  (extendSchedule 48 (wordsOfBlock block).reverse).reverse

/-- One SHA-256 compression round. -/
def compressStep (s : Hash8) (kw : Nat × Nat) : Hash8 :=
  let t1 := w32 (s.h + bsig1 s.e + shaCh s.e s.f s.g + kw.1 + kw.2)
  let t2 := w32 (bsig0 s.a + shaMaj s.a s.b s.c)
  ⟨w32 (t1 + t2), s.a, s.b, s.c, w32 (s.d + t1), s.e, s.f, s.g⟩

/-- Compress one 64-byte block into the running hash value. -/
def compressBlock (s0 : Hash8) (block : List Nat) : Hash8 :=
  let s := (shaK.zip (messageSchedule block)).foldl compressStep s0
  ⟨w32 (s0.a + s.a), w32 (s0.b + s.b), w32 (s0.c + s.c), w32 (s0.d + s.d),
   w32 (s0.e + s.e), w32 (s0.f + s.f), w32 (s0.g + s.g), w32 (s0.h + s.h)⟩

/-- SHA-256 of a byte list, as the final eight-word state. -/
def sha256 (msg : List Nat) : Hash8 :=
  (chunks64 (padMessage msg).length (padMessage msg)).foldl compressBlock shaInit

/-- Lower-case hex digit (for inputs below 16). -/
def hexChar (n : Nat) : Char :=
  "0123456789abcdef".data.getD n '0'

/-- Eight hex characters of one 32-bit word, most significant first. -/
def wordHexChars (w : Nat) : List Char :=
  [hexChar ((w >>> 28) &&& 15), hexChar ((w >>> 24) &&& 15),
   hexChar ((w >>> 20) &&& 15), hexChar ((w >>> 16) &&& 15),
   hexChar ((w >>> 12) &&& 15), hexChar ((w >>> 8) &&& 15),
   hexChar ((w >>> 4) &&& 15), hexChar (w &&& 15)]

/-- The 64-character hex digest (`digest('hex')`). -/
def sha256Hex (msg : List Nat) : List Char :=
  let s := sha256 msg
  wordHexChars s.a ++ wordHexChars s.b ++ wordHexChars s.c ++ wordHexChars s.d ++
  wordHexChars s.e ++ wordHexChars s.f ++ wordHexChars s.g ++ wordHexChars s.h

/-- Hinnant's civil-from-days computation (as used by `Date.toISOString`
for days since 1970-01-01), restricted to nonnegative day numbers:
year, month, day of month. -/
def civilFromDays (z : Nat) : Nat × Nat × Nat :=
  let z' := z + 719468
  let era := z' / 146097
  let doe := z' % 146097
  let yoe := (doe - doe / 1460 + doe / 36524 - doe / 146096) / 365
  let y := yoe + era * 400
  let doy := doe - (365 * yoe + yoe / 4 - yoe / 100)
  let mp := (5 * doy + 2) / 153
  let d := doy - (153 * mp + 2) / 5 + 1
  let m := if mp < 10 then mp + 3 else mp - 9
  if m ≤ 2 then (y + 1, m, d) else (y, m, d)

/-- Decimal digits of a natural number. -/
def natChars (n : Nat) : List Char := Nat.toDigits 10 n

/-- Zero-padded two-digit field. -/
def pad2 (n : Nat) : List Char :=
  if n < 10 then '0' :: natChars n else natChars n

/-- Zero-padded four-digit field. -/
def pad4 (n : Nat) : List Char :=
  if n < 10 then '0' :: '0' :: '0' :: natChars n
  else if n < 100 then '0' :: '0' :: natChars n
  else if n < 1000 then '0' :: natChars n
  else natChars n

/-- `YYYY-MM-DD` for a day number (days since the epoch). -/
def isoDateOfDay (day : Nat) : List Char :=
  let ymd := civilFromDays day
  pad4 ymd.1 ++ '-' :: pad2 ymd.2.1 ++ '-' :: pad2 ymd.2.2

/-- `new Date(t).toISOString().split('T')[0]`: the UTC calendar date of a
millisecond timestamp. -/
def isoDateChars (ms : Nat) : List Char :=
  isoDateOfDay (ms / 86400000)

/-- Byte encoding of the hashed string.  The tracked strings are ASCII,
where UTF-8 bytes coincide with the code points. -/
def strBytes (cs : List Char) : List Nat := cs.map Char.toNat

/-- `generateSessionId` from `utils/session.js`: SHA-256 of
`` `${ip}-${userAgent}-${date}` `` truncated to its first 16 hex
characters. -/
def generateSessionId (ip userAgent : String) (timestamp : Nat) : String :=
  let data := ip.data ++ '-' :: userAgent.data ++ '-' :: isoDateChars timestamp
  ⟨(sha256Hex (strBytes data)).take 16⟩

/-- `hasDoNotTrack` reads `req.headers['dnt'] || req.headers['do-not-track']`
and accepts the values `'1'` and `'true'`.  The two header slots are the
`Option String` arguments. -/
def hasDoNotTrack (dnt doNotTrack : Option String) : Bool :=
  match jsOrOpt dnt doNotTrack with
  | some s => s = "1" || s = "true"
  | none => false

/-! ## Geolocation (`utils/geolocation.js`)

`getCountryFromIP` short-circuits a fixed list of private/loopback
patterns, otherwise queries ip-api.com and falls back to ipapi.co.  The
two lookups are modelled by the parsed JSON each would have produced
(`none` for any network/timeout/non-OK failure); the second component of
the result counts the outbound calls that were attempted. -/

/-- Result shape of `getCountryFromIP`. -/
structure GeoResult where
  country : String
  countryCode : String
  city : String
  region : String
deriving Repr, DecidableEq

/-- The sentinel tuple returned for unknown locations. -/
def unknownGeo : GeoResult := ⟨"Unknown", "XX", "Unknown", "Unknown"⟩

/-- Fields of a successful ip-api.com JSON reply (absent JSON string
fields are the empty string, matching JS falsiness). -/
structure Api1Data where
  status : String
  country : String
  countryCode : String
  city : String
  regionName : String
deriving Repr, DecidableEq

/-- Fields of an ipapi.co JSON reply. -/
structure Api2Data where
  error : Bool
  country_name : String
  country_code : String
  city : String
  region : String
deriving Repr, DecidableEq

/-- The guard at the top of `getCountryFromIP`: requests for these inputs
are answered with the sentinel and no lookup.  `""` stands for a missing
(`undefined`/`null`) IP, which is falsy in `!ip`. -/
def skipsLookup (ip : String) : Bool :=
  ip = "" || ip = "::1" || ip = "127.0.0.1" || ip = "unknown" ||
  jsStartsWith ip "192.168." || jsStartsWith ip "10." || jsStartsWith ip "172." ||
  jsStartsWith ip "::ffff:192.168." || jsStartsWith ip "::ffff:10." || jsStartsWith ip "::ffff:172."

/-- The ipapi.co fallback branch of `getCountryFromIP` (both calls have
been attempted once it runs). -/
def getCountryFromIPFallback (api2 : Option Api2Data) : GeoResult × Nat :=
  match api2 with
  | some d2 =>
      if d2.error = false ∧ d2.country_name ≠ "" ∧ d2.country_code ≠ "" ∧ d2.country_code ≠ "XX" then
        (⟨jsOr d2.country_name "Unknown", (jsOr d2.country_code "XX").toUpper,
          jsOr d2.city "Unknown", jsOr d2.region "Unknown"⟩, 2)
      else (unknownGeo, 2)
  | none => (unknownGeo, 2)

/-- `getCountryFromIP`.  Returns the located tuple together with the
number of outbound HTTP lookups attempted.  (The `cleanIP` rewriting of
a `::ffff:` victim only affects the URL queried, not the result shape,
and is therefore not modelled.) -/
def getCountryFromIP (api1 : Option Api1Data) (api2 : Option Api2Data) (ip : String) :
    GeoResult × Nat :=
  if skipsLookup ip then (unknownGeo, 0)
  else
    match api1 with
    | some d1 =>
        if d1.status = "success" ∧ d1.country ≠ "" ∧ d1.countryCode ≠ "" then
          (⟨jsOr d1.country "Unknown", (jsOr d1.countryCode "XX").toUpper,
            jsOr d1.city "Unknown", jsOr d1.regionName "Unknown"⟩, 1)
        else getCountryFromIPFallback api2
    | none => getCountryFromIPFallback api2

/-! ## Tracking routes (`routes/track.js`)

`POST /api/track/visit` and `POST /api/track/event`.  The database is a
pair of lists; `Visit.create`/`Event.create` add a record at the front.
The device/browser/os and referrer classification stored alongside a
visit is independent of every claim and is not carried in the record. -/

/-- The stored fields of a `Visit` document relevant to the claims. -/
structure Visit where
  page : String
  path : String
  sessionId : String
  isUnique : Bool
  country : String
  countryCode : String
  city : String
  region : String
  timestamp : Nat
deriving Repr, DecidableEq

/-- The stored fields of an `Event` document. -/
structure EventRec where
  eventName : String
  page : String
  path : String
  sessionId : String
  country : String
  countryCode : String
  timestamp : Nat
deriving Repr, DecidableEq

/-- The visit and event collections. -/
structure Db where
  visits : List Visit
  events : List EventRec
deriving Repr, DecidableEq

/-- The request headers the tracking routes read. -/
structure TrackHeaders where
  dnt : Option String := none
  doNotTrack : Option String := none
  userAgent : Option String := none
  referer : Option String := none
deriving Repr, DecidableEq

/-- Body of `POST /api/track/visit`. -/
structure VisitBody where
  page : Option String := none
  path : Option String := none
  referrer : Option String := none
  sessionId : Option String := none
deriving Repr, DecidableEq

/-- Body of `POST /api/track/event` (the opaque `metadata` mapping is
stored as-is and not modelled). -/
structure EventBody where
  eventName : Option String := none
  page : Option String := none
  path : Option String := none
  sessionId : Option String := none
deriving Repr, DecidableEq

/-- The JSON envelope a tracking route answers with. -/
structure TrackResponse where
  status : Nat
  success : Bool
  message : Option String := none
  sessionId : Option String := none
  isUnique : Option Bool := none
deriving Repr, DecidableEq

/-- The Do-Not-Track early exit shared by both tracking routes. -/
def dntResponse : TrackResponse :=
  { status := 200, success := true, message := some "Tracking skipped (Do Not Track)" }

/-- 400 reply of the visit route when `page` or `path` is falsy. -/
def pagePathRequired : TrackResponse :=
  { status := 400, success := false, message := some "Page and path are required" }

/-- 400 reply of the event route when a required field is falsy. -/
def eventFieldsRequired : TrackResponse :=
  { status := 400, success := false, message := some "Event name, page, and path are required" }

/-- `clientSessionId || generateSessionId(ip, userAgent, new Date())`. -/
def resolvedSessionId (clientSid : Option String) (ip userAgent : String) (now : Nat) : String :=
  if jsFalsyO clientSid then generateSessionId ip userAgent now else clientSid.getD ""

/-- `today.setHours(0,0,0,0)`: the start of the current calendar day
(modelled at UTC), in milliseconds. -/
def startOfToday (now : Nat) : Nat := now / 86400000 * 86400000

/-- The `Visit.findOne({sessionId, timestamp: {$gte: today}})` uniqueness
probe, negated: `true` when no visit of this session is on record for
the current day. -/
def visitIsUnique (db : Db) (sid : String) (now : Nat) : Bool :=
  !(db.visits.any fun v => v.sessionId == sid && decide (startOfToday now ≤ v.timestamp))

/-- The `Visit` document created by the visit route. -/
def mkVisit (body : VisitBody) (sid : String) (isUnique : Bool) (geo : GeoResult) (now : Nat) :
    Visit :=
  { page := body.page.getD "", path := body.path.getD "", sessionId := sid,
    isUnique := isUnique, country := geo.country, countryCode := geo.countryCode,
    city := geo.city, region := geo.region, timestamp := now }

/-- `POST /api/track/visit`. -/
def trackVisit (api1 : Option Api1Data) (api2 : Option Api2Data) (ip : String)
    (hdrs : TrackHeaders) (body : VisitBody) (now : Nat) (db : Db) : TrackResponse × Db :=
  if hasDoNotTrack hdrs.dnt hdrs.doNotTrack then (dntResponse, db)
  else if jsFalsyO body.page || jsFalsyO body.path then (pagePathRequired, db)
  else
    let sid := resolvedSessionId body.sessionId ip (hdrs.userAgent.getD "") now
    let isUnique := visitIsUnique db sid now
    let geo := (getCountryFromIP api1 api2 ip).1
    ({ status := 201, success := true, sessionId := some sid, isUnique := some isUnique },
     { db with visits := mkVisit body sid isUnique geo now :: db.visits })

/-- The `Event` document created by the event route. -/
def mkEvent (body : EventBody) (sid : String) (geo : GeoResult) (now : Nat) : EventRec :=
  { eventName := body.eventName.getD "", page := body.page.getD "", path := body.path.getD "",
    sessionId := sid, country := geo.country, countryCode := geo.countryCode, timestamp := now }

/-- `POST /api/track/event`. -/
def trackEvent (api1 : Option Api1Data) (api2 : Option Api2Data) (ip : String)
    (hdrs : TrackHeaders) (body : EventBody) (now : Nat) (db : Db) : TrackResponse × Db :=
  if hasDoNotTrack hdrs.dnt hdrs.doNotTrack then (dntResponse, db)
  else if jsFalsyO body.eventName || jsFalsyO body.page || jsFalsyO body.path then
    (eventFieldsRequired, db)
  else
    let sid := resolvedSessionId body.sessionId ip (hdrs.userAgent.getD "") now
    let geo := (getCountryFromIP api1 api2 ip).1
    ({ status := 201, success := true },
     { db with events := mkEvent body sid geo now :: db.events })

/-! ## CSV lead export (`routes/analytics.js`, `GET /api/analytics/export/leads`)

The route maps each lead to a row — applying `replace(/"/g, '""')` to the
message — and then wraps **every** cell in double quotes with a second
`replace(/"/g, '""')`.  A reference RFC-4180 parser is defined alongside
to test the round-trip. -/

/-- `s.replace(/"/g, '""')`: double every quote character. -/
def jsReplaceQuotes : List Char → List Char
  | [] => []
  | c :: rest =>
      if c = '"' then '"' :: '"' :: jsReplaceQuotes rest
      else c :: jsReplaceQuotes rest

/-- The projection of a stored lead used by the export (all fields are
strings by the time they are interpolated; `createdAt` is already the
ISO rendering `new Date(l.createdAt).toISOString()`). -/
structure LeadRow where
  name : String
  email : String
  message : String
  page : String
  country : String
  status : String
  createdAt : String
deriving Repr, DecidableEq

/-- Cell quoting of the export: `` `"${String(cell).replace(/"/g, '""')}"` ``. -/
def csvCell (cell : List Char) : List Char :=
  '"' :: jsReplaceQuotes cell ++ ['"']

/-- One exported data row: message pre-escaped, then every cell quoted,
cells joined with commas. -/
def csvLeadLine (l : LeadRow) : List Char :=
  List.intercalate [',']
    (([l.name.data, l.email.data, jsReplaceQuotes l.message.data, l.page.data,
       l.country.data, l.status.data, l.createdAt.data]).map csvCell)

/-- The unquoted header row `headers.join(',')`. -/
def csvHeaderLine : List Char :=
  "Name,Email,Message,Page,Country,Status,Created At".data

/-- The full exported document: header and rows joined with newlines. -/
def exportLeadsCsv (leads : List LeadRow) : List Char :=
  List.intercalate ['\n'] (csvHeaderLine :: leads.map csvLeadLine)

/-- RFC-4180 quoted-field body: `""` is an escaped quote, a lone `"`
closes the field.  Returns the field text and the unconsumed input. -/
def parseQuotedBody : List Char → Option (List Char × List Char)
  | [] => none
  | c :: rest =>
      if c = '"' then
        match rest with
        | d :: rest2 =>
            if d = '"' then (parseQuotedBody rest2).map fun p => ('"' :: p.1, p.2)
            else some ([], rest)
        | [] => some ([], [])
      else (parseQuotedBody rest).map fun p => (c :: p.1, p.2)

/-- Unquoted-field text: everything up to the next separator. -/
def takeUnquoted : List Char → List Char × List Char
  | [] => ([], [])
  | c :: rest =>
      if c = ',' ∨ c = '\n' then ([], c :: rest)
      else
        let p := takeUnquoted rest
        (c :: p.1, p.2)

/-- One CSV field, quoted or bare. -/
def parseCsvField (s : List Char) : Option (List Char × List Char) :=
  match s with
  | '"' :: rest => parseQuotedBody rest
  | _ => some (takeUnquoted s)

/-- One CSV record: comma-separated fields, ending at a newline or the
end of input (fuel-driven; the fuel only bounds recursion depth). -/
def parseCsvRecord : Nat → List Char → Option (List (List Char) × List Char)
  | 0, _ => none
  | fuel + 1, s =>
      match parseCsvField s with
      | none => none
      | some (f, rest) =>
          match rest with
          | ',' :: r2 => (parseCsvRecord fuel r2).map fun p => (f :: p.1, p.2)
          | '\n' :: r2 => some ([f], r2)
          | [] => some ([f], [])
          | _ => none

/-- A whole CSV document as a list of records. -/
def parseCsvDoc : Nat → List Char → Option (List (List (List Char)))
  | 0, _ => none
  | _ + 1, [] => some []
  | fuel + 1, s =>
      match parseCsvRecord (s.length + 1) s with
      | none => none
      | some (r, rest) => (parseCsvDoc fuel rest).map fun rs => r :: rs

/-- Entry point of the reference CSV parser. -/
def parseCsv (s : List Char) : Option (List (List (List Char))) :=
  parseCsvDoc (s.length + 1) s

/-! ## Lead updates (`routes/leads.js`, `PUT /api/leads/:id`) -/

/-- The stored fields of a `Lead` document the update route touches. -/
structure LeadDoc where
  status : String
  notes : Option String
  contactedAt : Option Nat
  contactedBy : Option String
deriving Repr, DecidableEq

/-- The route's `updateData` object, built up field by field. -/
structure LeadUpdateData where
  status : Option String := none
  notes : Option String := none
  contactedAt : Option Nat := none
  contactedBy : Option String := none
deriving Repr, DecidableEq

/-- Body of `PUT /api/leads/:id`. -/
structure LeadUpdateBody where
  status : Option String := none
  notes : Option String := none
deriving Repr, DecidableEq

/-- Outcome of the update route (a rejected status never reaches the
store, so the stored lead is unchanged in that case). -/
inductive LeadUpdateResult
  | invalidStatus
  | updated (lead : LeadDoc)
deriving Repr, DecidableEq

/-- `findByIdAndUpdate`: fields present in `updateData` overwrite the
stored document, all others are untouched. -/
def applyLeadUpdate (lead : LeadDoc) (u : LeadUpdateData) : LeadDoc :=
  { status := u.status.getD lead.status,
    notes := match u.notes with | some n => some n | none => lead.notes,
    contactedAt := match u.contactedAt with | some t => some t | none => lead.contactedAt,
    contactedBy := match u.contactedBy with | some a => some a | none => lead.contactedBy }

/-- `PUT /api/leads/:id`.  Faithful to the source, including the guard
`status === 'contacted' && !updateData.contactedAt`, which tests the
`updateData` object that was created empty a few lines above. -/
def updateLead (lead : LeadDoc) (body : LeadUpdateBody) (adminId : String) (now : Nat) :
    LeadUpdateResult :=
  let ud0 : LeadUpdateData := {}
  let step :=
    if jsFalsyO body.status then some ud0
    else
      let s := body.status.getD ""
      if s ≠ "new" ∧ s ≠ "contacted" ∧ s ≠ "closed" then none
      else
        let u := { ud0 with status := some s }
        some (if s = "contacted" ∧ u.contactedAt = none then
                { u with contactedAt := some now, contactedBy := some adminId }
              else u)
  match step with
  | none => .invalidStatus
  | some u =>
      let u' := match body.notes with | some n => { u with notes := some n } | none => u
      .updated (applyLeadUpdate lead u')

/-! ## Ads (`models/Ad.js` and `routes/ads.js`) -/

/-- The `status` enumeration of an Ad. -/
inductive AdStatus
  | draft
  | active
  | expired
deriving Repr, DecidableEq

/-- The Ad fields the date logic touches. -/
structure Ad where
  startDate : Nat
  endDate : Nat
  status : AdStatus
deriving Repr, DecidableEq

/-- `adSchema.methods.isActive`: status must be `'active'` **and** the
current instant must lie within the date bounds. -/
def Ad.isActive (ad : Ad) (now : Nat) : Bool :=
  ad.status == .active && decide (ad.startDate ≤ now) && decide (now ≤ ad.endDate)

/-- `adSchema.pre('save')`: re-derive the status from the bounds unless
the ad is a draft. -/
def adPreSave (ad : Ad) (now : Nat) : Ad :=
  if ad.status = .draft then ad
  else if ad.endDate < now then { ad with status := .expired }
  else if ad.startDate ≤ now ∧ ad.endDate ≥ now then { ad with status := .active }
  else if ad.startDate > now then { ad with status := .draft }
  else ad

/-- Body of `PUT /api/ads/:id` (only the fields the date validation and
status derivation read). -/
structure AdUpdateBody where
  startDate : Option Nat := none
  endDate : Option Nat := none
  status : Option AdStatus := none
deriving Repr, DecidableEq

/-- Outcome of the ad routes: a 400 rejection writes nothing. -/
inductive AdWriteResult
  | badRequest
  | written (ad : Ad)
deriving Repr, DecidableEq

/-- The date validation of `PUT /api/ads/:id`: it only runs when **both**
bounds appear in the request body (`if (startDate && endDate)`). -/
def putAdDateCheckFails (body : AdUpdateBody) : Bool :=
  match body.startDate, body.endDate with
  | some s, some e => decide (e < s)
  | _, _ => false

/-- `PUT /api/ads/:id`: validate, then auto-derive the status when it was
not supplied and a bound changed, then `findByIdAndUpdate`. -/
def putAd (ad : Ad) (body : AdUpdateBody) (now : Nat) : AdWriteResult :=
  if putAdDateCheckFails body then .badRequest
  else
    let startD := body.startDate.getD ad.startDate
    let endD := body.endDate.getD ad.endDate
    let autoStatus : Option AdStatus :=
      if body.status.isNone && (body.startDate.isSome || body.endDate.isSome) then
        if ad.status ≠ .draft then
          if endD < now then some .expired
          else if startD ≤ now ∧ endD ≥ now then some .active
          else if startD > now then some .draft
          else none
        else none
      else body.status
    .written { startDate := startD, endDate := endD, status := autoStatus.getD ad.status }

/-- `POST /api/ads`: reject `endDate < startDate`, otherwise derive the
status from the bounds when it is not `'draft'` and create the ad. -/
def createAd (startDate endDate : Nat) (status : AdStatus) (now : Nat) : AdWriteResult :=
  if endDate < startDate then .badRequest
  else
    let st :=
      if status ≠ .draft then
        if endDate < now then .expired
        else if startDate ≤ now ∧ endDate ≥ now then .active
        else if startDate > now then .draft
        else status
      else status
    .written { startDate := startDate, endDate := endDate, status := st }

/-! ## Blog comment counters (`routes/blog.js`, `POST /api/blog/:slug/comments`) -/

/-- The counters the comment route maintains on the parent post. -/
structure BlogStats where
  commentsCount : Nat
  ratingsCount : Nat
  ratingsTotal : Nat
deriving Repr, DecidableEq

/-- The `$inc` update of the comment route: `commentsCount` always grows
by one; a (truthy) rating also bumps `ratingsCount` and adds itself to
`ratingsTotal`. -/
def applyCommentRating (st : BlogStats) (rating : Option Nat) : BlogStats :=
  match rating with
  | some r =>
      if r ≠ 0 then
        { commentsCount := st.commentsCount + 1, ratingsCount := st.ratingsCount + 1,
          ratingsTotal := st.ratingsTotal + r }
      else { st with commentsCount := st.commentsCount + 1 }
  | none => { st with commentsCount := st.commentsCount + 1 }

/-- `Math.round` on a nonnegative value: round half up. -/
def jsRound (q : ℚ) : ℤ := ⌊q + 1 / 2⌋

/-- The read-time rolling average
`ratingsCount > 0 ? Math.round((ratingsTotal / ratingsCount) * 10) / 10 : 0`
(JS number arithmetic modelled over ℚ). -/
def ratingsAverage (count total : Nat) : ℚ :=
  if 0 < count then (jsRound ((total : ℚ) / (count : ℚ) * 10) : ℚ) / 10 else 0

/-! ## Theorems -/

/-- C4 (counterexample): the IPv6-mapped loopback address
`::ffff:127.0.0.1` is not in the guard list of `getCountryFromIP`, so it
is not short-circuited: with a successful primary lookup the function
performs an outbound call and returns that lookup's data instead of the
sentinel. -/
theorem c4_counterexample :
    getCountryFromIP (some ⟨"success", "Localland", "LL", "Looptown", "Loop"⟩)
      none "::ffff:127.0.0.1" ≠ (unknownGeo, 0) := by decide

/-- C4 (amended): every IP matched by the code's guard — missing/empty,
`::1`, `127.0.0.1`, `unknown`, or starting with `192.168.`, `10.`,
`172.`, `::ffff:192.168.`, `::ffff:10.`, `::ffff:172.` — resolves to the
sentinel tuple with no outbound call, and the (total) function returns a
tuple for every input; the IPv6-mapped loopback `::ffff:127.0.0.1` is
not short-circuited. -/
theorem c4_amended_skip_list (ip : String) (h : skipsLookup ip = true)
    (api1 : Option Api1Data) (api2 : Option Api2Data) :
    getCountryFromIP api1 api2 ip = (unknownGeo, 0) := by
  simp [getCountryFromIP, h]

/-- Witness for `c4_amended_skip_list` at the RFC1918 address
192.168.1.1. -/
theorem c4_amended_skip_list_witness :
    skipsLookup "192.168.1.1" = true ∧
    getCountryFromIP none none "192.168.1.1" = (unknownGeo, 0) :=
  ⟨by decide, c4_amended_skip_list "192.168.1.1" (by decide) none none⟩

/-- C10: every IP string beginning with `172.` — including publicly
routable addresses outside 172.16.0.0/12 — is short-circuited to the
sentinel with no outbound call. -/
theorem c10_all_172_skipped (ip : String) (h : jsStartsWith ip "172." = true)
    (api1 : Option Api1Data) (api2 : Option Api2Data) :
    getCountryFromIP api1 api2 ip = (unknownGeo, 0) := by
  have hs : skipsLookup ip = true := by simp [skipsLookup, h]
  simp [getCountryFromIP, hs]

/-- Witness for `c10_all_172_skipped` at Google's public 172.217.0.1,
with the lookup that would have succeeded supplied. -/
theorem c10_all_172_skipped_witness :
    jsStartsWith "172.217.0.1" "172." = true ∧
    getCountryFromIP (some ⟨"success", "United States", "US", "Mountain View", "California"⟩)
      none "172.217.0.1" = (unknownGeo, 0) :=
  ⟨by decide,
   c10_all_172_skipped "172.217.0.1" (by decide)
     (some ⟨"success", "United States", "US", "Mountain View", "California"⟩) none⟩

set_option maxRecDepth 40000 in
/-- C5 (code bug): exporting a lead whose message embeds a comma, quote
characters and a newline doubles the message's quotes twice (once by the
message-specific `replace`, once by the generic cell quoting), so the
reference RFC-4180 parser recovers the message with every quote doubled
— not the original string.  Commas and the newline do round-trip. -/
theorem c5_export_not_roundtrip :
    parseCsv (exportLeadsCsv
        [⟨"Jane Roe", "jane@example.com", "He said \"hi\", then\nleft", "/contact", "US", "new",
          "2024-01-01T00:00:00.000Z"⟩]) =
      some [["Name".data, "Email".data, "Message".data, "Page".data, "Country".data,
             "Status".data, "Created At".data],
            ["Jane Roe".data, "jane@example.com".data, "He said \"\"hi\"\", then\nleft".data,
             "/contact".data, "US".data, "new".data, "2024-01-01T00:00:00.000Z".data]] ∧
    ("He said \"\"hi\"\", then\nleft" : String) ≠ "He said \"hi\", then\nleft" := by decide

/-- C6 (code bug): the first update that marks a lead contacted stamps
`contactedAt`/`contactedBy`, but a second `status: "contacted"` update
re-stamps both fields — the guard `!updateData.contactedAt` inspects the
freshly created empty `updateData` object, so it is always true. -/
theorem c6_contacted_restamped :
    updateLead ⟨"new", none, none, none⟩ { status := some "contacted" } "adminA" 100
      = .updated ⟨"contacted", none, some 100, some "adminA"⟩ ∧
    updateLead ⟨"contacted", none, some 100, some "adminA"⟩
        { status := some "contacted" } "adminB" 200
      = .updated ⟨"contacted", none, some 200, some "adminB"⟩ := by decide

/-- C7 (counterexample): an Ad with `startDate` 2024-01-01 and `endDate`
2024-01-31 whose persisted status is `'expired'` (which is not
`'draft'`) has `isActive` false at 2024-01-15, although the instant lies
within the date bounds — `isActive` reads the persisted status, it is
not a pure function of the bounds alone. -/
theorem c7_counterexample :
    Ad.isActive ⟨1704067200000, 1706659200000, .expired⟩ 1705276800000 = false ∧
    AdStatus.expired ≠ AdStatus.draft ∧
    1704067200000 ≤ 1705276800000 ∧ 1705276800000 ≤ 1706659200000 := by decide

/-- C7 (amended): `isActive` at `t` is true exactly when the persisted
status is `'active'` and `startDate ≤ t ≤ endDate`; for a non-draft ad
whose status was just re-derived by the save hook at `t`, `isActive t`
does coincide with the pure date-bounds check. -/
theorem c7_amended_isActive (ad : Ad) (now : Nat) (h : ad.status ≠ .draft) :
    (Ad.isActive ad now = true ↔
      ad.status = .active ∧ ad.startDate ≤ now ∧ now ≤ ad.endDate) ∧
    (Ad.isActive (adPreSave ad now) now = true ↔
      ad.startDate ≤ now ∧ now ≤ ad.endDate) := by
  constructor
  · simp [Ad.isActive, and_assoc]
  · unfold adPreSave
    split_ifs with h1 h2 h3 h4 <;> simp_all [Ad.isActive]

/-- Witness for `c7_amended_isActive` at the spec's example dates with a
stale `'expired'` status. -/
theorem c7_amended_isActive_witness :
    AdStatus.expired ≠ AdStatus.draft ∧
    ((Ad.isActive ⟨1704067200000, 1706659200000, .expired⟩ 1705276800000 = true ↔
        AdStatus.expired = AdStatus.active ∧
        1704067200000 ≤ 1705276800000 ∧ 1705276800000 ≤ 1706659200000) ∧
     (Ad.isActive (adPreSave ⟨1704067200000, 1706659200000, .expired⟩ 1705276800000)
          1705276800000 = true ↔
        1704067200000 ≤ 1705276800000 ∧ 1705276800000 ≤ 1706659200000)) :=
  ⟨by decide, c7_amended_isActive ⟨1704067200000, 1706659200000, .expired⟩ 1705276800000 (by decide)⟩

/-- C8 (counterexample): an update request that changes only `endDate`
to an instant before the stored `startDate` is not rejected — the date
validation requires both bounds in the body — and the crossed bounds are
written (the auto-derivation even flips the status to `'expired'`). -/
theorem c8_counterexample :
    putAd ⟨1704067200000, 1706659200000, .active⟩
        { endDate := some 1703980800000 } 1705276800000
      = .written ⟨1704067200000, 1703980800000, .expired⟩ ∧
    (1703980800000 : Nat) < 1704067200000 := by decide

/-- C8 (amended): the 400 rejection fires exactly when both bounds appear
in the update request with the new `endDate` before the new `startDate`
(a request changing a single bound is never validated against the stored
other bound), and creation with `endDate < startDate` is rejected; a
rejected request writes nothing. -/
theorem c8_amended_date_check (ad : Ad) (body : AdUpdateBody) (now s e : Nat)
    (hs : body.startDate = some s) (he : body.endDate = some e) (hlt : e < s)
    (s' e' now' : Nat) (st : AdStatus) (hlt' : e' < s') :
    putAd ad body now = .badRequest ∧ createAd s' e' st now' = .badRequest := by
  constructor
  · have hb : putAdDateCheckFails body = true := by
      simp [putAdDateCheckFails, hs, he, hlt]
    simp [putAd, hb]
  · simp [createAd, hlt']

/-- Witness for `c8_amended_date_check`: both bounds supplied, crossed. -/
theorem c8_amended_date_check_witness :
    ({ startDate := some 1704067200000, endDate := some 1703980800000 } :
        AdUpdateBody).startDate = some 1704067200000 ∧
    ({ startDate := some 1704067200000, endDate := some 1703980800000 } :
        AdUpdateBody).endDate = some 1703980800000 ∧
    (1703980800000 : Nat) < 1704067200000 ∧
    (putAd ⟨1704067200000, 1706659200000, .active⟩
        { startDate := some 1704067200000, endDate := some 1703980800000 } 1705276800000
      = .badRequest ∧
     createAd 1704067200000 1703980800000 .active 1705276800000 = .badRequest) :=
  ⟨rfl, rfl, by decide,
   c8_amended_date_check ⟨1704067200000, 1706659200000, .active⟩
     { startDate := some 1704067200000, endDate := some 1703980800000 }
     1705276800000 1704067200000 1703980800000 rfl rfl (by decide)
     1704067200000 1703980800000 1705276800000 .active (by decide)⟩

/-- C9: a comment with rating 4 on a post with `ratingsCount = 2` and
`ratingsTotal = 7` moves the counters to 3 and 11 while bumping
`commentsCount` by exactly one, the read-time average then reports
`round(11/3*10)/10 = 3.7`, and in general the reported average is
`ratingsTotal / ratingsCount` rounded to one decimal (0 for no
ratings). -/
theorem c9_comment_rating (cc c t : Nat) (h : 0 < c) :
    applyCommentRating ⟨cc, 2, 7⟩ (some 4) = ⟨cc + 1, 3, 11⟩ ∧
    ratingsAverage 3 11 = 37 / 10 ∧
    ratingsAverage c t = (jsRound ((t : ℚ) / (c : ℚ) * 10) : ℚ) / 10 ∧
    ratingsAverage 0 t = 0 := by
  refine ⟨rfl, ?_, ?_, rfl⟩
  · have hf : jsRound ((11 : ℚ) / 3 * 10) = 37 := by
      unfold jsRound
      rw [show (11 : ℚ) / 3 * 10 + 1 / 2 = 223 / 6 by norm_num]
      rw [Int.floor_eq_iff]
      norm_num
    unfold ratingsAverage
    rw [if_pos (by norm_num)]
    push_cast [hf]
    norm_num
  · unfold ratingsAverage
    rw [if_pos h]

/-- Witness for `c9_comment_rating` at the spec's example counters. -/
theorem c9_comment_rating_witness :
    applyCommentRating ⟨0, 2, 7⟩ (some 4) = ⟨1, 3, 11⟩ ∧
    ratingsAverage 3 11 = 37 / 10 ∧
    ratingsAverage 3 11 = (jsRound ((11 : ℚ) / (3 : ℚ) * 10) : ℚ) / 10 ∧
    ratingsAverage 0 11 = 0 :=
  c9_comment_rating 0 3 11 (by decide)

/-- C2: a tracking request carrying a Do-Not-Track signal writes neither a
Visit nor an Event record and is answered with a 200 success envelope
carrying the skipped message — never an error. -/
theorem c2_dnt_skips_tracking (api1 : Option Api1Data) (api2 : Option Api2Data) (ip : String)
    (hdrs : TrackHeaders) (vbody : VisitBody) (ebody : EventBody) (now : Nat) (db : Db)
    (h : hasDoNotTrack hdrs.dnt hdrs.doNotTrack = true) :
    trackVisit api1 api2 ip hdrs vbody now db = (dntResponse, db) ∧
    trackEvent api1 api2 ip hdrs ebody now db = (dntResponse, db) ∧
    dntResponse.status = 200 ∧ dntResponse.success = true ∧
    dntResponse.message = some "Tracking skipped (Do Not Track)" := by
  refine ⟨?_, ?_, rfl, rfl, rfl⟩
  · simp [trackVisit, h]
  · simp [trackEvent, h]

/-- Witness for `c2_dnt_skips_tracking` with a `DNT: 1` header. -/
theorem c2_dnt_skips_tracking_witness :
    hasDoNotTrack (some "1") none = true ∧
    (trackVisit none none "203.0.113.5" ⟨some "1", none, some "UA", none⟩
        ⟨some "home", some "/", none, none⟩ 1705276800000 ⟨[], []⟩ = (dntResponse, ⟨[], []⟩) ∧
     trackEvent none none "203.0.113.5" ⟨some "1", none, some "UA", none⟩
        ⟨some "click", some "home", some "/", none⟩ 1705276800000 ⟨[], []⟩
       = (dntResponse, ⟨[], []⟩) ∧
     dntResponse.status = 200 ∧ dntResponse.success = true ∧
     dntResponse.message = some "Tracking skipped (Do Not Track)") :=
  ⟨by decide,
   c2_dnt_skips_tracking none none "203.0.113.5" ⟨some "1", none, some "UA", none⟩
     ⟨some "home", some "/", none, none⟩ ⟨some "click", some "home", some "/", none⟩
     1705276800000 ⟨[], []⟩ (by decide)⟩

/-- Unfolding of the visit route for a request that carries no DNT
signal, has truthy `page` and `path`, and supplies a truthy client
session id. -/
theorem trackVisit_clientSid (api1 : Option Api1Data) (api2 : Option Api2Data) (ip : String)
    (hdrs : TrackHeaders) (body : VisitBody) (sid : String)
    (hdnt : hasDoNotTrack hdrs.dnt hdrs.doNotTrack = false)
    (hpage : jsFalsyO body.page = false) (hpath : jsFalsyO body.path = false)
    (hsid : body.sessionId = some sid) (hsidne : sid ≠ "")
    (now : Nat) (db : Db) :
    trackVisit api1 api2 ip hdrs body now db =
      ({ status := 201, success := true, message := none, sessionId := some sid,
         isUnique := some (visitIsUnique db sid now) },
       { db with visits :=
           mkVisit body sid (visitIsUnique db sid now) (getCountryFromIP api1 api2 ip).1 now
             :: db.visits }) := by
  have hreq : (jsFalsyO body.page || jsFalsyO body.path) = false := by
    simp [hpage, hpath]
  have hsidf : jsFalsyO body.sessionId = false := by
    rw [hsid]; simp [jsFalsyO, hsidne]
  have hgetd : body.sessionId.getD "" = sid := by rw [hsid]; rfl
  simp [trackVisit, hdnt, hreq, resolvedSessionId, hsidf, hgetd]

/-- A visit of the same session on record for the current day makes the
uniqueness probe answer `false`. -/
theorem visitIsUnique_false_of_same_day (db : Db) (sid : String) (v : Visit) (now : Nat)
    (hv : v ∈ db.visits) (hs : v.sessionId = sid) (ht : startOfToday now ≤ v.timestamp) :
    visitIsUnique db sid now = false := by
  simp only [visitIsUnique, Bool.not_eq_false']
  exact List.any_eq_true.mpr ⟨v, hv, by simp [hs, ht]⟩

/-- When every visit of the session on record is before the start of the
current day, the uniqueness probe answers `true`. -/
theorem visitIsUnique_true_of_all_before (db : Db) (sid : String) (now : Nat)
    (h : ∀ v ∈ db.visits, v.sessionId = sid → v.timestamp < startOfToday now) :
    visitIsUnique db sid now = true := by
  simp only [visitIsUnique, Bool.not_eq_true']
  refine List.any_eq_false.mpr ?_
  intro v hv
  by_cases hs : v.sessionId = sid
  · simp [hs, Nat.not_le.mpr (h v hv hs)]
  · simp [hs]

/-- Two timestamps of the same calendar day: the day start of the second
is at or before the first. -/
theorem startOfToday_le_same_day (t1 t2 : Nat) (h : t1 / 86400000 = t2 / 86400000) :
    startOfToday t2 ≤ t1 := by
  unfold startOfToday
  omega

/-- A timestamp of an earlier calendar day is before the day start of a
later day. -/
theorem lt_startOfToday_next_day (t tnext : Nat) (h : tnext / 86400000 = t / 86400000 + 1) :
    t < startOfToday tnext := by
  unfold startOfToday
  omega

/-- C3: recording two visits with the same session id on the same
calendar day stores the second with `isUnique = false` (and answers so),
and a visit recorded on the next calendar day — with no other visit of
that session on or after that day's start — is stored with
`isUnique = true` again. -/
theorem c3_unique_per_day (api1 : Option Api1Data) (api2 : Option Api2Data) (ip : String)
    (hdrs : TrackHeaders) (body : VisitBody) (db0 : Db) (sid : String) (t1 t2 t3 : Nat)
    (r1 r2 r3 : TrackResponse) (db1 db2 db3 : Db)
    (hdnt : hasDoNotTrack hdrs.dnt hdrs.doNotTrack = false)
    (hpage : jsFalsyO body.page = false) (hpath : jsFalsyO body.path = false)
    (hsid : body.sessionId = some sid) (hsidne : sid ≠ "")
    (hday12 : t1 / 86400000 = t2 / 86400000)
    (hday3 : t3 / 86400000 = t2 / 86400000 + 1)
    (hprior : ∀ v ∈ db0.visits, v.sessionId = sid → v.timestamp < startOfToday t3)
    (h1 : trackVisit api1 api2 ip hdrs body t1 db0 = (r1, db1))
    (h2 : trackVisit api1 api2 ip hdrs body t2 db1 = (r2, db2))
    (h3 : trackVisit api1 api2 ip hdrs body t3 db2 = (r3, db3)) :
    r2.isUnique = some false ∧
    db2.visits.head?.map Visit.isUnique = some false ∧
    r3.isUnique = some true ∧
    db3.visits.head?.map Visit.isUnique = some true := by
  have key := trackVisit_clientSid api1 api2 ip hdrs body sid hdnt hpage hpath hsid hsidne
  rw [key] at h1
  injection h1 with hr1 hd1
  subst hd1
  rw [key] at h2
  injection h2 with hr2 hd2
  subst hr2
  subst hd2
  rw [key] at h3
  injection h3 with hr3 hd3
  subst hr3
  subst hd3
  refine ⟨?_, ?_, ?_, ?_⟩
  · refine congrArg some ?_
    exact visitIsUnique_false_of_same_day _ sid _ t2 (List.mem_cons_self _ _) rfl
      (startOfToday_le_same_day t1 t2 hday12)
  · refine congrArg some ?_
    exact visitIsUnique_false_of_same_day _ sid _ t2 (List.mem_cons_self _ _) rfl
      (startOfToday_le_same_day t1 t2 hday12)
  · refine congrArg some ?_
    refine visitIsUnique_true_of_all_before _ sid t3 ?_
    intro v hv
    rcases List.mem_cons.mp hv with rfl | hv2
    · intro _
      exact lt_startOfToday_next_day t2 t3 hday3
    · rcases List.mem_cons.mp hv2 with rfl | hv3
      · intro _
        exact lt_startOfToday_next_day t1 t3 (by omega)
      · exact hprior v hv3
  · refine congrArg some ?_
    refine visitIsUnique_true_of_all_before _ sid t3 ?_
    intro v hv
    rcases List.mem_cons.mp hv with rfl | hv2
    · intro _
      exact lt_startOfToday_next_day t2 t3 hday3
    · rcases List.mem_cons.mp hv2 with rfl | hv3
      · intro _
        exact lt_startOfToday_next_day t1 t3 (by omega)
      · exact hprior v hv3

/-- Witness for `c3_unique_per_day`: an empty store, two visits of
session `s1` on day 0 (at 0ms and 1000ms) and one on day 1. -/
theorem c3_unique_per_day_witness :
    (⟨201, true, none, some "s1", some false⟩ : TrackResponse).isUnique = some false ∧
    (⟨[⟨"home", "/", "s1", false, "Unknown", "XX", "Unknown", "Unknown", 1000⟩,
       ⟨"home", "/", "s1", true, "Unknown", "XX", "Unknown", "Unknown", 0⟩], []⟩ :
        Db).visits.head?.map Visit.isUnique = some false ∧
    (⟨201, true, none, some "s1", some true⟩ : TrackResponse).isUnique = some true ∧
    (⟨[⟨"home", "/", "s1", true, "Unknown", "XX", "Unknown", "Unknown", 86400000⟩,
       ⟨"home", "/", "s1", false, "Unknown", "XX", "Unknown", "Unknown", 1000⟩,
       ⟨"home", "/", "s1", true, "Unknown", "XX", "Unknown", "Unknown", 0⟩], []⟩ :
        Db).visits.head?.map Visit.isUnique = some true :=
  c3_unique_per_day none none "203.0.113.5" ⟨none, none, some "UA", none⟩
    ⟨some "home", some "/", none, some "s1"⟩ ⟨[], []⟩ "s1" 0 1000 86400000
    ⟨201, true, none, some "s1", some true⟩
    ⟨201, true, none, some "s1", some false⟩
    ⟨201, true, none, some "s1", some true⟩
    ⟨[⟨"home", "/", "s1", true, "Unknown", "XX", "Unknown", "Unknown", 0⟩], []⟩
    ⟨[⟨"home", "/", "s1", false, "Unknown", "XX", "Unknown", "Unknown", 1000⟩,
      ⟨"home", "/", "s1", true, "Unknown", "XX", "Unknown", "Unknown", 0⟩], []⟩
    ⟨[⟨"home", "/", "s1", true, "Unknown", "XX", "Unknown", "Unknown", 86400000⟩,
      ⟨"home", "/", "s1", false, "Unknown", "XX", "Unknown", "Unknown", 1000⟩,
      ⟨"home", "/", "s1", true, "Unknown", "XX", "Unknown", "Unknown", 0⟩], []⟩
    (by decide) (by decide) (by decide) rfl (by decide) (by decide) (by decide)
    (by simp) (by decide) (by decide) (by decide)

/-! ## Auxiliary facts about the session identifier

The distinct-days clause of the specification is a collision-freeness
statement about the truncated digest and is outside what can be settled
here; the remaining properties of `generateSessionId` follow. -/

/-- Deriving a session id twice from the same inputs yields the identical
value. -/
theorem generateSessionId_deterministic (ip ua : String) (t : Nat) :
    generateSessionId ip ua t = generateSessionId ip ua t := rfl

/-- Two timestamps of the same UTC calendar day derive the same session
id (the hashed string only contains the calendar date). -/
theorem generateSessionId_same_day (ip ua : String) (t1 t2 : Nat)
    (h : t1 / 86400000 = t2 / 86400000) :
    generateSessionId ip ua t1 = generateSessionId ip ua t2 := by
  unfold generateSessionId isoDateChars
  rw [h]

/-- Witness for `generateSessionId_same_day` at two instants of
2024-01-15. -/
theorem generateSessionId_same_day_witness :
    (1705276800000 : Nat) / 86400000 = 1705320000000 / 86400000 ∧
    generateSessionId "1.2.3.4" "UA" 1705276800000
      = generateSessionId "1.2.3.4" "UA" 1705320000000 :=
  ⟨by decide, generateSessionId_same_day "1.2.3.4" "UA" _ _ (by decide)⟩

/-- The hex digest of the embedded SHA-256 always has 64 characters. -/
theorem sha256Hex_length (msg : List Nat) : (sha256Hex msg).length = 64 := by
  simp [sha256Hex, wordHexChars]

/-- A session id always has exactly 16 characters. -/
theorem generateSessionId_length (ip ua : String) (t : Nat) :
    (generateSessionId ip ua t).length = 16 := by
  unfold generateSessionId
  show ((sha256Hex _).take 16).length = 16
  rw [List.length_take, sha256Hex_length]
  decide

/-- Every hex digit produced by `hexChar` is a lower-case hex digit. -/
theorem hexChar_mem (n : Nat) : hexChar n ∈ "0123456789abcdef".data := by
  unfold hexChar
  rcases Nat.lt_or_ge n ("0123456789abcdef".data.length) with h | h
  · rw [List.getD_eq_getElem _ _ h]
    exact List.getElem_mem _
  · rw [List.getD_eq_default _ _ h]
    decide

/-- Every character rendered for one word of the digest is a hex digit. -/
theorem wordHexChars_mem (w : Nat) :
    ∀ c ∈ wordHexChars w, c ∈ "0123456789abcdef".data := by
  intro c hc
  simp only [wordHexChars, List.mem_cons, List.not_mem_nil, or_false] at hc
  rcases hc with h | h | h | h | h | h | h | h <;> (rw [h]; exact hexChar_mem _)

/-- Every character of the hex digest is a lower-case hex digit. -/
theorem sha256Hex_mem (msg : List Nat) :
    ∀ c ∈ sha256Hex msg, c ∈ "0123456789abcdef".data := by
  intro c hc
  unfold sha256Hex at hc
  simp only [List.mem_append] at hc
  rcases hc with ((((((h | h) | h) | h) | h) | h) | h) | h <;>
    exact wordHexChars_mem _ c h

/-- Every character of a session id is a lower-case hex digit. -/
theorem generateSessionId_hex (ip ua : String) (t : Nat) :
    ∀ c ∈ (generateSessionId ip ua t).data, c ∈ "0123456789abcdef".data := by
  intro c hc
  have hc2 : c ∈ (sha256Hex (strBytes
      (ip.data ++ '-' :: ua.data ++ '-' :: isoDateChars t))).take 16 := hc
  exact sha256Hex_mem _ c (List.take_subset 16 _ hc2)

end Portfolio
